import Mathlib

/-!
OpenSLP: the known-DA list (`slpd/slpd_knownda.c`), the DSA primitives
(`common/slp_crypto.c`) and the log (`slpd/slpd_log.c`).

A shallow embedding of the functions of `slpd_knownda.c`, `slp_crypto.c` and `slpd_log.c`.

* The intrusive list hanging off `G_KnownDAListHead` is a `List SLPDAEntry`, first entry first.
* `struct in_addr` is the address as a number; `memcmp(..) == 0` over it is equality.
* `unsigned long bootstamp` is a `Nat`; the code only compares and stores it.
* A byte buffer is a `List Nat`; `int` is `Int`.
* The `while` loop of `SLPDKnownDAAddition` is run with fuel, one unit per test of the loop
  condition; `none` means that the fuel ran out before the function returned.
* The allocator is an input: `alloc` says whether the one allocation a call makes succeeds.
* A log function is the list of the texts it writes to the log file, in the order of the
  writes; what lies outside `slpd_log.c` (the clock, the address printer, the message parser,
  the constants of `slpd_log.h`) is an input.
-/

namespace OpenSLP

/-! ## Data model -/

/-- The fields of `SLPDAEntry` that `slpd_knownda.c` reads and writes. -/
structure SLPDAEntry where
  /-- Field `daaddr`, a `struct in_addr`. -/
  daaddr : Nat
  /-- Field `bootstamp`, an `unsigned long`. -/
  bootstamp : Nat
  /-- The bytes `scopelist` points to. -/
  scopelist : List Nat
  /-- Field `scopelistlen`, an `int`. -/
  scopelistlen : Int
  deriving DecidableEq, Repr

/-- What `memcpy(dst, src, n)` leaves in `dst`: the first `n` bytes of `src`. -/
def memcpy (src : List Nat) (n : Int) : List Nat :=
  src.take n.toNat

/-- Modelled from the spec: `SLPDAEntryCreate` is declared in `slpd.h` and defined outside
`slpd_knownda.c`. It makes the entry that "owns" the address, the boot timestamp and the scope
list it is handed; it yields a null pointer (`none`) when its allocation fails. -/
def SLPDAEntryCreate (alloc : Bool) (addr : Nat) (bootstamp : Nat) (scopelist : List Nat)
    (scopelistlen : Int) : Option SLPDAEntry :=
  if alloc then some ⟨addr, bootstamp, memcpy scopelist scopelistlen, scopelistlen⟩ else none

/-- Modelled from the spec: `ListLink` is defined outside `slpd_knownda.c`; the spec says the
source "uses `ListLink` on head pointers" of intrusive lists. The item becomes the new first
entry of the list. -/
def ListLink (head : List SLPDAEntry) (item : SLPDAEntry) : List SLPDAEntry :=
  item :: head

/-- What a call of `SLPDKnownDAAddition` that returned a live entry leaves behind. -/
structure Result where
  /-- The list at `G_KnownDAListHead` after the call. -/
  head : List SLPDAEntry
  /-- The entry the returned pointer refers to. -/
  entry : SLPDAEntry
  /-- The last value of the by-value parameter `bootstamp`. -/
  bootstamp : Nat
  deriving DecidableEq, Repr

/-- The ways a call of `SLPDKnownDAAddition` ends. -/
inductive Outcome where
  /-- The call returned a pointer to an entry of the list (lines 101 and 110). -/
  | returned (r : Result)
  /-- Lines 95 to 99: `realloc` failed, the entry was freed while still linked and the call
  returned 0. `G_KnownDAListHead` is left pointing at freed storage. -/
  | freed
  /-- Line 108 with a null `entry`: `SLPDAEntryCreate` failed and `ListLink` was handed a null
  item. -/
  | nullLinked
  deriving DecidableEq, Repr

/-! ## `slpd_knownda.c` -/

/-- Function `SLPDKnownDAInit`, lines 42 to 50: the body is `return 0;`. The pair is the list
afterwards and the return value. -/
def SLPDKnownDAInit (G_KnownDAListHead : List SLPDAEntry) : List SLPDAEntry × Int :=
  (G_KnownDAListHead, 0)

/-- Lines 77 to 101: the body of `if (memcmp(&entry->daaddr,addr,..) == 0)`, for the entry at
position `cursor`. -/
def updateEntry (alloc : Bool) (head : List SLPDAEntry) (cursor : Nat) (entry : SLPDAEntry)
    (bootstamp : Nat) (scopelist : List Nat) (scopelistlen : Int) : Outcome :=
  -- lines 79 to 88
  let stored := if entry.bootstamp < bootstamp then bootstamp else entry.bootstamp
  let bootstamp := if entry.bootstamp < bootstamp then bootstamp else 0
  -- lines 89 to 99
  if alloc then
    let entry : SLPDAEntry :=
      ⟨entry.daaddr, stored, memcpy scopelist scopelistlen, scopelistlen⟩
    Outcome.returned ⟨head.set cursor entry, entry, bootstamp⟩
  else
    Outcome.freed

/-- Lines 105 to 110: create and link in a new entry. -/
def createEntry (alloc : Bool) (head : List SLPDAEntry) (addr : Nat) (scopelist : List Nat)
    (scopelistlen : Int) : Outcome :=
  let bootstamp := 0
  match SLPDAEntryCreate alloc addr bootstamp scopelist scopelistlen with
  | some entry => Outcome.returned ⟨ListLink head entry, entry, bootstamp⟩
  | none => Outcome.nullLinked

/-- Lines 72 to 110 from the first test of `while(entry)` on. `cursor` is the position in the
list of the entry the local pointer `entry` refers to; past the end it is the null pointer. The
loop body has no `entry = entry->next`, so the next iteration runs with the same `cursor`. -/
def SLPDKnownDAAddition.loop (fuel : Nat) (alloc : Bool) (head : List SLPDAEntry)
    (cursor : Nat) (addr : Nat) (bootstamp : Nat) (scopelist : List Nat)
    (scopelistlen : Int) : Option Outcome :=
  match fuel with
  | 0 => none
  | fuel + 1 =>
    match head.get? cursor with
    | none => some (createEntry alloc head addr scopelist scopelistlen)
    | some entry =>
      if entry.daaddr = addr then
        some (updateEntry alloc head cursor entry bootstamp scopelist scopelistlen)
      else
        SLPDKnownDAAddition.loop fuel alloc head cursor addr bootstamp scopelist scopelistlen

/-- Function `SLPDKnownDAAddition`, lines 54 to 111: `entry = G_KnownDAListHead;` and then the
loop. -/
def SLPDKnownDAAddition (fuel : Nat) (alloc : Bool) (G_KnownDAListHead : List SLPDAEntry)
    (addr : Nat) (bootstamp : Nat) (scopelist : List Nat) (scopelistlen : Int) :
    Option Outcome :=
  SLPDKnownDAAddition.loop fuel alloc G_KnownDAListHead 0 addr bootstamp scopelist scopelistlen

/-! ## Traces of calls and the notions the specification uses -/

/-- The arguments of one call of `SLPDKnownDAAddition`, with the allocator's answer. -/
structure Call where
  /-- Whether the allocation made during the call succeeds. -/
  alloc : Bool
  /-- Argument `addr`. -/
  addr : Nat
  /-- Argument `bootstamp`. -/
  bootstamp : Nat
  /-- Argument `scopelist`. -/
  scopelist : List Nat
  /-- Argument `scopelistlen`. -/
  scopelistlen : Int
  deriving DecidableEq, Repr

/-- Runs the calls one after the other on the list `head`, each with `fuel` units of fuel. The
result is the list after the last call; it is `none` as soon as a call does not return an
entry. -/
def runCalls (fuel : Nat) (head : List SLPDAEntry) : List Call → Option (List SLPDAEntry)
  | [] => some head
  | c :: cs =>
    match SLPDKnownDAAddition fuel c.alloc head c.addr c.bootstamp c.scopelist
        c.scopelistlen with
    | some (Outcome.returned r) => runCalls fuel r.head cs
    | _ => none

/-- The entry of the list for the address `addr`: the first one whose `daaddr` is `addr`. -/
def findEntry (head : List SLPDAEntry) (addr : Nat) : Option SLPDAEntry :=
  head.find? (fun e => e.daaddr == addr)

/-- The bootstamp the list stores for the address `addr`. -/
def storedBootstamp (head : List SLPDAEntry) (addr : Nat) : Option Nat :=
  (findEntry head addr).map (fun e => e.bootstamp)

/-- The entry lines 81 to 93 leave in place of `entry` when `realloc` succeeds. -/
def updated (entry : SLPDAEntry) (bootstamp : Nat) (scopelist : List Nat)
    (scopelistlen : Int) : SLPDAEntry :=
  ⟨entry.daaddr, if entry.bootstamp < bootstamp then bootstamp else entry.bootstamp,
    memcpy scopelist scopelistlen, scopelistlen⟩

/-! ## `slp_crypto.c` -/

/-- The five parameters of a DSA key (`SLPCryptoDSAKey` is OpenSSL's `DSA`). Each is a
`BIGNUM*`: `none` is the null pointer, `some n` a big number of value `n`. -/
structure SLPCryptoDSAKey where
  /-- Field `p`. -/
  p : Option Nat
  /-- Field `q`. -/
  q : Option Nat
  /-- Field `g`. -/
  g : Option Nat
  /-- Field `priv_key`. -/
  priv_key : Option Nat
  /-- Field `pub_key`. -/
  pub_key : Option Nat
  deriving DecidableEq, Repr

/-- What a signing call leaves behind: the `int` it returns, the bytes in the buffer
`signature` and the value of `*signaturelen`. -/
structure SignOut where
  /-- The returned `int`. -/
  ret : Int
  /-- The bytes of the buffer `signature` after the call. -/
  signature : List Nat
  /-- The value of `*signaturelen` after the call. -/
  signaturelen : Int
  deriving DecidableEq, Repr

/-- The type of OpenSSL's `DSA_sign(type, dgst, dlen, sig, siglen, dsa)`, a library function
outside the repository: from the arguments, with the buffer `sig` and `*siglen` as they are
before the call, to what the call leaves behind. -/
abbrev DSASign : Type :=
  Int → List Nat → Int → List Nat → Int → SLPCryptoDSAKey → SignOut

/-- Function `SLPCryptoDSASign`, lines 132 to 144: `return DSA_sign(0, ..) == 0;`. The C
comparison is the `int` 1 when it holds and 0 when it does not. -/
def SLPCryptoDSASign (DSA_sign : DSASign) (key : SLPCryptoDSAKey) (digest : List Nat)
    (digestlen : Int) (signature : List Nat) (signaturelen : Int) : SignOut :=
  let out := DSA_sign 0 digest digestlen signature signaturelen key
  ⟨if out.ret = 0 then 1 else 0, out.signature, out.signaturelen⟩

/-- The type of OpenSSL's `DSA_verify(type, dgst, dlen, sig, siglen, dsa)`, a library function
outside the repository. It answers 1 for a valid signature, 0 for an invalid one and -1 on an
error. -/
abbrev DSAVerify : Type :=
  Int → List Nat → Int → List Nat → Int → SLPCryptoDSAKey → Int

/-- Function `SLPCryptoDSAVerify`, lines 156 to 168: `return DSA_verify(0, ..);`. -/
def SLPCryptoDSAVerify (DSA_verify : DSAVerify) (key : SLPCryptoDSAKey) (digest : List Nat)
    (digestlen : Int) (signature : List Nat) (signaturelen : Int) : Int :=
  DSA_verify 0 digest digestlen signature signaturelen key

/-- What a call of `SLPCryptoDSAKeyDup` leaves behind. -/
structure KeyDupOut where
  /-- The returned pointer: `none` is the null pointer. -/
  result : Option SLPCryptoDSAKey
  /-- The key `dsa` points to, after the call. -/
  dsa : SLPCryptoDSAKey
  deriving DecidableEq, Repr

/-- Function `SLPCryptoDSAKeyDup`, lines 79 to 94. `DSA_new` says whether OpenSSL's
`DSA_new()` hands out a key; `BN_dup` is OpenSSL's `BN_dup`. The function only reads through
`dsa`. -/
def SLPCryptoDSAKeyDup (DSA_new : Bool) (BN_dup : Option Nat → Option Nat)
    (dsa : SLPCryptoDSAKey) : KeyDupOut :=
  if DSA_new then
    ⟨some ⟨BN_dup dsa.p, BN_dup dsa.q, BN_dup dsa.g, BN_dup dsa.priv_key, BN_dup dsa.pub_key⟩,
      dsa⟩
  else
    ⟨none, dsa⟩

/-! ## `slpd_log.c` -/

/-- The `FILE*` values `slpd_log.c` handles: the standard streams and the streams `fopen`
hands out. -/
inductive FILE where
  /-- The stream `stdout`. -/
  | stdout
  /-- The stream `stderr`. -/
  | stderr
  /-- A stream that `fopen` returned. -/
  | stream (id : Nat)
  deriving DecidableEq, Repr

/-- What a call of `SLPDLogFileOpen` leaves behind. -/
structure LogFileOpenOut where
  /-- The value of `G_SlpdLogFile` after the call. -/
  G_SlpdLogFile : Option FILE
  /-- The stream handed to `fclose`, if any. -/
  closed : Option FILE
  /-- The returned `int`. -/
  ret : Int
  deriving DecidableEq, Repr

/-- Function `SLPDLogFileOpen`, lines 64 to 103. `fopen` is the C library's, from the path and
the mode to the stream or the null pointer; `*path == 0` is `path = ""`. -/
def SLPDLogFileOpen (fopen : String → String → Option FILE) (G_SlpdLogFile : Option FILE)
    (path : String) (append : Int) : LogFileOpenOut :=
  -- lines 66 to 70
  let closed := G_SlpdLogFile
  if path = "" then
    -- lines 72 to 76 and 102
    ⟨some FILE.stdout, closed, 0⟩
  else
    -- lines 86 to 93
    let G_SlpdLogFile := if append ≠ 0 then fopen path "a" else fopen path "w"
    -- lines 95 to 102
    if G_SlpdLogFile = none then ⟨G_SlpdLogFile, closed, -1⟩ else ⟨G_SlpdLogFile, closed, 0⟩

/-- Function `SLPDLog`, lines 125 to 136, as the list of texts it writes to the log file:
`text` is what `vfprintf` makes of `msg` and the arguments after it. -/
def SLPDLog (G_SlpdLogFile : Option FILE) (text : String) : List String :=
  if G_SlpdLogFile.isSome then [text] else []

/-- What a call of `SLPDFatal` does before the process is gone. -/
structure FatalOut where
  /-- The texts written to the log file. -/
  logfile : List String
  /-- The texts written to `stderr`. -/
  stderr : List String
  /-- The texts written to `stdout`. -/
  stdout : List String
  /-- The argument of the `exit` call that ends the process. -/
  status : Int
  deriving DecidableEq, Repr

/-- Function `SLPDFatal`, lines 145 to 166; `text` is what the `printf` family makes of `msg`
and the arguments after it. -/
def SLPDFatal (G_SlpdLogFile : Option FILE) (text : String) : FatalOut :=
  match G_SlpdLogFile with
  | some _ => ⟨["A FATAL Error has occured:\n", text], [], [], 1⟩
  | none => ⟨[], ["A FATAL Error has occured:\n"], [text], 1⟩

/-- Function `SLPDLogTime`, lines 187 to 191; `ctime` is the text of the current time. -/
def SLPDLogTime (G_SlpdLogFile : Option FILE) (ctime : String) : List String :=
  SLPDLog G_SlpdLogFile ctime

/-- A `struct sockaddr_storage`, as its bytes. -/
abbrev sockaddr_storage : Type := List Nat

/-- An `SLPBuffer`, as the bytes from `start` up to `end`: `end - start` is their number. -/
structure SLPBuffer where
  /-- The bytes `start[0]` to `end[-1]`, each an `unsigned char`. -/
  bytes : List Nat
  deriving DecidableEq, Repr

/-- Function `SLPDLogPeerAddr`, lines 343 to 348; `addr_str` is the text
`SLPNetSockAddrStorageToString` makes of the address. -/
def SLPDLogPeerAddr (G_SlpdLogFile : Option FILE) (addr_str : String) : List String :=
  SLPDLog G_SlpdLogFile ("Peer IP address: " ++ addr_str ++ "\n")

/-- The fields of `G_SlpdProperty` that `slpd_log.c` reads. -/
structure SLPDProperty where
  /-- Field `traceMsg`. -/
  traceMsg : Int
  /-- Field `traceDrop`. -/
  traceDrop : Int
  /-- Field `traceReg`. -/
  traceReg : Int
  /-- Field `traceDATraffic`. -/
  traceDATraffic : Int
  deriving DecidableEq, Repr

/-- What `SLPDLogMessage` and `SLPDLogParseWarning` use from outside `slpd_log.c`. -/
structure LogEnv where
  /-- The constant `SLPDLOG_TRACEMSG` of `slpd_log.h`, as a bit pattern. -/
  SLPDLOG_TRACEMSG : Nat
  /-- The constant `SLPDLOG_TRACEDROP` of `slpd_log.h`, as a bit pattern. -/
  SLPDLOG_TRACEDROP : Nat
  /-- The constant `SLPDLOG_TRACEMSG_OUT` of `slpd_log.h`, as a bit pattern. -/
  SLPDLOG_TRACEMSG_OUT : Nat
  /-- The constant `SLPDLOG_TRACEMSG_IN` of `slpd_log.h`, as a bit pattern. -/
  SLPDLOG_TRACEMSG_IN : Nat
  /-- The function `SLPNetIsLocal` of `slp_net.h`. -/
  SLPNetIsLocal : sockaddr_storage → Int
  /-- The function `SLPNetSockAddrStorageToString` of `slp_net.h`. -/
  SLPNetSockAddrStorageToString : sockaddr_storage → String
  /-- The text `ctime(&curtime)` gives at the time of the call. -/
  ctime : String
  /-- Whether `SLPMessageAlloc()` hands out a message. -/
  SLPMessageAlloc : Bool
  /-- The `int` that `SLPMessageParseBuffer` returns. -/
  SLPMessageParseBuffer : sockaddr_storage → Option sockaddr_storage → SLPBuffer → Int
  /-- The texts `SLPDLogMessageInternals` (lines 354 to 420) hands to `SLPDLog` for the message
  parsed from a buffer. -/
  internals : SLPBuffer → List String
  /-- The field `peer` of the message after the parsing of a buffer failed. -/
  peer : SLPBuffer → sockaddr_storage

/-- Function `SLPDLogMessage`, lines 431 to 490, as the list of texts written to the log
file. `msglogflags` is the bit pattern of the `int`, so `msglogflags & C` is non-zero exactly
when the bitwise and of the patterns is. -/
def SLPDLogMessage (env : LogEnv) (G_SlpdProperty : SLPDProperty)
    (G_SlpdLogFile : Option FILE) (msglogflags : Nat) (peerinfo : Option sockaddr_storage)
    (localaddr : Option sockaddr_storage) (buf : Option SLPBuffer) : List String :=
  match peerinfo, buf with
  | some peerinfo, some buf =>
    if (G_SlpdProperty.traceMsg ≠ 0 ∧ msglogflags &&& env.SLPDLOG_TRACEMSG ≠ 0) ∨
        (G_SlpdProperty.traceDrop ≠ 0 ∧ msglogflags &&& env.SLPDLOG_TRACEDROP ≠ 0) then
      if env.SLPNetIsLocal peerinfo = 0 ∧ buf.bytes ≠ [] then
        if env.SLPMessageAlloc then
          SLPDLog G_SlpdLogFile "\n" ++
          SLPDLogTime G_SlpdLogFile env.ctime ++
          SLPDLog G_SlpdLogFile "MESSAGE - " ++
          (if msglogflags = env.SLPDLOG_TRACEMSG_OUT then
            SLPDLog G_SlpdLogFile "Trace message (OUT)\n"
          else if msglogflags = env.SLPDLOG_TRACEMSG_IN then
            SLPDLog G_SlpdLogFile "Trace message (IN)\n"
          else if msglogflags = env.SLPDLOG_TRACEDROP then
            SLPDLog G_SlpdLogFile "Dropped message (following message silently ignored)\n"
          else
            SLPDLog G_SlpdLogFile "\n") ++
          (if env.SLPMessageParseBuffer peerinfo localaddr buf = 0 then
            (env.internals buf).flatMap (SLPDLog G_SlpdLogFile)
          else
            SLPDLog G_SlpdLogFile "Message parsing failed\n" ++
            SLPDLog G_SlpdLogFile "Peer: \n" ++
            SLPDLog G_SlpdLogFile
              ("   IP address: " ++ env.SLPNetSockAddrStorageToString (env.peer buf) ++ "\n"))
        else []
      else []
    else []
  | _, _ => []

/-- The conversion `%02x` of `printf` for a value below 256: two hexadecimal digits, the
letters in lower case. -/
def fmt_02x (v : Nat) : String :=
  String.mk [Nat.digitChar (v / 16), Nat.digitChar (v % 16)]

/-- The conversion `%c` of `printf`: the character with the code `v`. -/
def fmt_c (v : Nat) : String :=
  String.singleton (Char.ofNat v)

/-- The conversion `%i` of `printf`: the decimal numeral. -/
def fmt_i (v : Int) : String :=
  toString v

/-- Lines 608 to 627: the `for` loop of `SLPDLogParseWarning` over the bytes still ahead of
`curpos`, with the counter `i`. -/
def SLPDLogParseWarning.loop (G_SlpdLogFile : Option FILE) : List Nat → Nat → List String
  | [], _ => []
  | curpos :: rest, i =>
    SLPDLog G_SlpdLogFile ("0x" ++ fmt_02x curpos) ++
    (if curpos < 0x20 ∨ curpos > 0x7f then
      SLPDLog G_SlpdLogFile "(\x27 \x27) "
    else
      SLPDLog G_SlpdLogFile ("(\x27" ++ fmt_c curpos ++ "\x27) ")) ++
    (if i + 1 = 10 then
      SLPDLog G_SlpdLogFile "\n" ++ SLPDLogParseWarning.loop G_SlpdLogFile rest 0
    else
      SLPDLogParseWarning.loop G_SlpdLogFile rest (i + 1))

/-- Function `SLPDLogParseWarning`, lines 591 to 629, as the list of texts written to the log
file. -/
def SLPDLogParseWarning (env : LogEnv) (G_SlpdLogFile : Option FILE)
    (peeraddr : Option sockaddr_storage) (buf : Option SLPBuffer) : List String :=
  match peeraddr, buf with
  | some peeraddr, some buf =>
    SLPDLog G_SlpdLogFile "\n" ++
    SLPDLogTime G_SlpdLogFile env.ctime ++
    SLPDLog G_SlpdLogFile "*** WARNING Parse Error ***\n" ++
    SLPDLogPeerAddr G_SlpdLogFile (env.SLPNetSockAddrStorageToString peeraddr) ++
    SLPDLog G_SlpdLogFile ("message size = " ++ fmt_i buf.bytes.length ++ "\n") ++
    SLPDLog G_SlpdLogFile "message dump follows:\n" ++
    SLPDLogParseWarning.loop G_SlpdLogFile buf.bytes 0 ++
    SLPDLog G_SlpdLogFile "\n"
  | _, _ => []

/-- The dump entry the specification describes for one byte: the two-digit hexadecimal value
after `0x`, then the character of the byte when the byte is in 0x20..0x7f and a blank
otherwise. -/
def dumpEntry (b : Nat) : List String :=
  ["0x" ++ fmt_02x b,
   if 0x20 ≤ b ∧ b ≤ 0x7f then "(\x27" ++ fmt_c b ++ "\x27) " else "(\x27 \x27) "]

/-- The message dump the specification describes, entry by entry: one entry per byte, in the
order of the bytes, and a line break after every tenth entry. The bytes are numbered from
`k`. -/
def messageDump (k : Nat) (bytes : List Nat) : List (List String) :=
  (bytes.enumFrom k).map
    (fun kb => dumpEntry kb.2 ++ if (kb.1 + 1) % 10 = 0 then ["\n"] else [])

/-! ## Shared lemmas on `SLPDKnownDAAddition` -/

theorem loop_head_unmatched (fuel : Nat) (alloc : Bool) (e : SLPDAEntry)
    (rest : List SLPDAEntry) (addr bootstamp : Nat) (scopelist : List Nat) (scopelistlen : Int)
    (h : e.daaddr ≠ addr) :
    SLPDKnownDAAddition fuel alloc (e :: rest) addr bootstamp scopelist scopelistlen = none := by
  unfold SLPDKnownDAAddition
  induction fuel with
  | zero => rfl
  | succ n ih =>
    unfold SLPDKnownDAAddition.loop
    simp only [List.get?_cons_zero, if_neg h]
    exact ih

theorem addition_nil (fuel : Nat) (alloc : Bool) (addr bootstamp : Nat) (scopelist : List Nat)
    (scopelistlen : Int) :
    SLPDKnownDAAddition (fuel + 1) alloc [] addr bootstamp scopelist scopelistlen
      = some (createEntry alloc [] addr scopelist scopelistlen) := by
  simp [SLPDKnownDAAddition, SLPDKnownDAAddition.loop]

theorem addition_head_matched (fuel : Nat) (alloc : Bool) (e : SLPDAEntry)
    (rest : List SLPDAEntry) (addr bootstamp : Nat) (scopelist : List Nat) (scopelistlen : Int)
    (h : e.daaddr = addr) :
    SLPDKnownDAAddition (fuel + 1) alloc (e :: rest) addr bootstamp scopelist scopelistlen
      = some (updateEntry alloc (e :: rest) 0 e bootstamp scopelist scopelistlen) := by
  simp [SLPDKnownDAAddition, SLPDKnownDAAddition.loop, h]

/-- A call that returns an entry either ran on the empty list and linked a new entry with
bootstamp 0, or found the address in the first entry and updated that entry. -/
theorem addition_returned (fuel : Nat) (alloc : Bool) (l : List SLPDAEntry)
    (addr bootstamp : Nat) (scopelist : List Nat) (scopelistlen : Int) (r : Result)
    (h : SLPDKnownDAAddition fuel alloc l addr bootstamp scopelist scopelistlen
      = some (Outcome.returned r)) :
    (l = [] ∧ r = ⟨[⟨addr, 0, memcpy scopelist scopelistlen, scopelistlen⟩],
        ⟨addr, 0, memcpy scopelist scopelistlen, scopelistlen⟩, 0⟩) ∨
    (∃ e rest, l = e :: rest ∧ e.daaddr = addr ∧
      r = ⟨updated e bootstamp scopelist scopelistlen :: rest,
        updated e bootstamp scopelist scopelistlen,
        if e.bootstamp < bootstamp then bootstamp else 0⟩) := by
  cases fuel with
  | zero => simp [SLPDKnownDAAddition, SLPDKnownDAAddition.loop] at h
  | succ n =>
    cases l with
    | nil =>
      left
      rw [addition_nil] at h
      cases alloc with
      | false => simp [createEntry, SLPDAEntryCreate] at h
      | true =>
        simp [createEntry, SLPDAEntryCreate, ListLink] at h
        exact ⟨rfl, h.symm⟩
    | cons e rest =>
      right
      by_cases hm : e.daaddr = addr
      · rw [addition_head_matched n alloc e rest addr bootstamp scopelist scopelistlen hm] at h
        cases alloc with
        | false => simp [updateEntry] at h
        | true =>
          simp [updateEntry] at h
          exact ⟨e, rest, rfl, hm, by rw [← h]; simp [updated]⟩
      · rw [loop_head_unmatched (n + 1) alloc e rest addr bootstamp scopelist scopelistlen hm] at h
        simp at h

theorem findEntry_cons_matched (e : SLPDAEntry) (rest : List SLPDAEntry) (addr : Nat)
    (h : e.daaddr = addr) : findEntry (e :: rest) addr = some e := by
  simp [findEntry, List.find?, h]

theorem findEntry_cons_unmatched (e : SLPDAEntry) (rest : List SLPDAEntry) (addr : Nat)
    (h : e.daaddr ≠ addr) : findEntry (e :: rest) addr = findEntry rest addr := by
  have hb : (e.daaddr == addr) = false := by simpa using h
  simp [findEntry, List.find?, hb]

/-- One returning call never lowers the bootstamp stored for any address. -/
theorem addition_bootstamp_mono (fuel : Nat) (alloc : Bool) (l : List SLPDAEntry)
    (addr bootstamp : Nat) (scopelist : List Nat) (scopelistlen : Int) (r : Result)
    (h : SLPDKnownDAAddition fuel alloc l addr bootstamp scopelist scopelistlen
      = some (Outcome.returned r))
    (a b : Nat) (hb : storedBootstamp l a = some b) :
    ∃ b2, storedBootstamp r.head a = some b2 ∧ b ≤ b2 := by
  rcases addition_returned fuel alloc l addr bootstamp scopelist scopelistlen r h with
    ⟨hl, _⟩ | ⟨e, rest, hl, _, hr⟩
  · subst hl
    simp [storedBootstamp, findEntry] at hb
  · subst hl
    subst hr
    by_cases ha : e.daaddr = a
    · have h1 : (updated e bootstamp scopelist scopelistlen).daaddr = a := ha
      rw [storedBootstamp, findEntry_cons_matched e rest a ha] at hb
      rw [storedBootstamp, findEntry_cons_matched _ rest a h1]
      simp only [Option.map_some', Option.some.injEq] at hb
      refine ⟨_, rfl, ?_⟩
      subst hb
      simp only [updated]
      split
      · omega
      · exact Nat.le_refl _
    · have h1 : (updated e bootstamp scopelist scopelistlen).daaddr ≠ a := ha
      rw [storedBootstamp, findEntry_cons_unmatched e rest a ha] at hb
      rw [storedBootstamp, findEntry_cons_unmatched _ rest a h1]
      exact ⟨b, hb, Nat.le_refl b⟩

/-- One returning call keeps the addresses of the list pairwise different. -/
theorem addition_nodup (fuel : Nat) (alloc : Bool) (l : List SLPDAEntry)
    (addr bootstamp : Nat) (scopelist : List Nat) (scopelistlen : Int) (r : Result)
    (h : SLPDKnownDAAddition fuel alloc l addr bootstamp scopelist scopelistlen
      = some (Outcome.returned r))
    (hnd : (l.map (fun e => e.daaddr)).Nodup) :
    (r.head.map (fun e => e.daaddr)).Nodup := by
  rcases addition_returned fuel alloc l addr bootstamp scopelist scopelistlen r h with
    ⟨_, hr⟩ | ⟨e, rest, hl, _, hr⟩
  · subst hr
    simp
  · subst hl
    subst hr
    simpa [updated] using hnd

theorem runCalls_nodup (fuel : Nat) (calls : List Call) :
    ∀ l l2 : List SLPDAEntry, (l.map (fun e => e.daaddr)).Nodup →
      runCalls fuel l calls = some l2 → (l2.map (fun e => e.daaddr)).Nodup := by
  induction calls with
  | nil =>
    intro l l2 hnd h
    simp only [runCalls, Option.some.injEq] at h
    exact h ▸ hnd
  | cons c cs ih =>
    intro l l2 hnd h
    rw [runCalls] at h
    split at h
    · next r hr => exact ih r.head l2 (addition_nodup _ _ _ _ _ _ _ r hr hnd) h
    · simp at h

theorem runCalls_bootstamp_mono (fuel : Nat) (calls : List Call) :
    ∀ (l l2 : List SLPDAEntry) (a b : Nat), runCalls fuel l calls = some l2 →
      storedBootstamp l a = some b → ∃ b2, storedBootstamp l2 a = some b2 ∧ b ≤ b2 := by
  induction calls with
  | nil =>
    intro l l2 a b h hb
    simp only [runCalls, Option.some.injEq] at h
    exact ⟨b, h ▸ hb, Nat.le_refl b⟩
  | cons c cs ih =>
    intro l l2 a b h hb
    rw [runCalls] at h
    split at h
    · next r hr =>
      obtain ⟨b1, hb1, hle1⟩ := addition_bootstamp_mono _ _ _ _ _ _ _ r hr a b hb
      obtain ⟨b2, hb2, hle2⟩ := ih r.head l2 a b1 h hb1
      exact ⟨b2, hb2, Nat.le_trans hle1 hle2⟩
    · simp at h

/-- The entry a returning call hands back is in the list afterwards, carries the supplied
address and holds the supplied scope list. -/
theorem addition_returned_entry (fuel : Nat) (alloc : Bool) (l : List SLPDAEntry)
    (addr bootstamp : Nat) (scopelist : List Nat) (scopelistlen : Int) (r : Result)
    (h : SLPDKnownDAAddition fuel alloc l addr bootstamp scopelist scopelistlen
      = some (Outcome.returned r)) :
    r.entry ∈ r.head ∧ r.entry.daaddr = addr ∧
      r.entry.scopelist = memcpy scopelist scopelistlen ∧
      r.entry.scopelistlen = scopelistlen := by
  rcases addition_returned fuel alloc l addr bootstamp scopelist scopelistlen r h with
    ⟨_, hr⟩ | ⟨e, rest, _, he, hr⟩
  · subst hr
    simp
  · subst hr
    simp [updated, he]

/-! ## Termination of `SLPDKnownDAAddition` (C1) -/

/-- C1, evaluated on the failing inputs: on the list holding one entry for 10.0.0.2, and on
the list holding an entry for 10.0.0.2 followed by one for 10.0.0.1, a call for the address
10.0.0.1 has not returned after any number of loop iterations, whatever the allocator does. -/
theorem addition_never_returns_past_unmatched_first_entry (fuel : Nat) (alloc : Bool) :
    SLPDKnownDAAddition fuel alloc [⟨167772162, 1000, [68, 69, 70, 65, 85, 76, 84], 7⟩]
        167772161 1001 [68, 69, 70, 65, 85, 76, 84] 7 = none ∧
    SLPDKnownDAAddition fuel alloc
        [⟨167772162, 1000, [68, 69, 70, 65, 85, 76, 84], 7⟩,
         ⟨167772161, 1000, [68, 69, 70, 65, 85, 76, 84], 7⟩]
        167772161 1001 [68, 69, 70, 65, 85, 76, 84] 7 = none :=
  ⟨loop_head_unmatched fuel alloc _ _ _ _ _ _ (by decide),
   loop_head_unmatched fuel alloc _ _ _ _ _ _ (by decide)⟩

/-! ## Bootstamp monotonicity (C2) -/

/-- C2: along every sequence of calls of `SLPDKnownDAAddition` that return an entry, started
on any list, the bootstamp stored for an address at the start is still stored for it at the
end and has not decreased. -/
theorem known_da_bootstamp_never_decreases (fuel : Nat) (calls : List Call)
    (l l2 : List SLPDAEntry) (a b : Nat) (hrun : runCalls fuel l calls = some l2)
    (hb : storedBootstamp l a = some b) :
    ∃ b2, storedBootstamp l2 a = some b2 ∧ b ≤ b2 :=
  runCalls_bootstamp_mono fuel calls l l2 a b hrun hb

/-- C2 at a concrete trace: 10.0.0.1 is stored with bootstamp 2000, then advertises 2001 and
after that 1500. -/
theorem known_da_bootstamp_never_decreases_witness :
    runCalls 1 [⟨167772161, 2000, [68], 1⟩]
        [⟨true, 167772161, 2001, [68], 1⟩, ⟨true, 167772161, 1500, [68], 1⟩]
      = some [⟨167772161, 2001, [68], 1⟩] ∧
    storedBootstamp [⟨167772161, 2000, [68], 1⟩] 167772161 = some 2000 ∧
    ∃ b2, storedBootstamp [⟨167772161, 2001, [68], 1⟩] 167772161 = some b2 ∧ 2000 ≤ b2 :=
  ⟨by decide, by decide,
    known_da_bootstamp_never_decreases 1
      [⟨true, 167772161, 2001, [68], 1⟩, ⟨true, 167772161, 1500, [68], 1⟩]
      [⟨167772161, 2000, [68], 1⟩] [⟨167772161, 2001, [68], 1⟩] 167772161 2000
      (by decide) (by decide)⟩

/-! ## Creation of a new entry (C3) -/

/-- C3 fails as stated: on the empty list a call for 10.0.0.1 with bootstamp 2000 links an
entry whose stored bootstamp is 0, not 2000. -/
theorem new_entry_bootstamp_is_not_the_supplied_one :
    findEntry [] 167772161 = none ∧
    SLPDKnownDAAddition 1 true [] 167772161 2000 [68, 69, 70, 65, 85, 76, 84] 7
      = some (Outcome.returned
          ⟨[⟨167772161, 0, [68, 69, 70, 65, 85, 76, 84], 7⟩],
           ⟨167772161, 0, [68, 69, 70, 65, 85, 76, 84], 7⟩, 0⟩) ∧
    storedBootstamp [⟨167772161, 0, [68, 69, 70, 65, 85, 76, 84], 7⟩] 167772161 ≠ some 2000 := by
  decide

/-- C3 as amended: when the list has no entry for the address, a call that returns has linked
a new first entry for the address holding the supplied scope list and the bootstamp 0,
whatever bootstamp was supplied; and on the empty list, with the allocation succeeding, the
call does return after one test of the loop condition. -/
theorem new_entry_created_with_zero_bootstamp (fuel : Nat) (alloc : Bool)
    (l : List SLPDAEntry) (addr bootstamp : Nat) (scopelist : List Nat) (scopelistlen : Int)
    (hno : findEntry l addr = none) :
    (l = [] →
      SLPDKnownDAAddition (fuel + 1) true l addr bootstamp scopelist scopelistlen
        = some (Outcome.returned
            ⟨[⟨addr, 0, memcpy scopelist scopelistlen, scopelistlen⟩],
             ⟨addr, 0, memcpy scopelist scopelistlen, scopelistlen⟩, 0⟩)) ∧
    (∀ r, SLPDKnownDAAddition fuel alloc l addr bootstamp scopelist scopelistlen
        = some (Outcome.returned r) →
      r.entry = ⟨addr, 0, memcpy scopelist scopelistlen, scopelistlen⟩ ∧
      r.head = r.entry :: l ∧
      findEntry r.head addr = some r.entry ∧
      storedBootstamp r.head addr = some 0) := by
  constructor
  · intro hl
    subst hl
    rw [addition_nil]
    rfl
  · intro r hr
    rcases addition_returned fuel alloc l addr bootstamp scopelist scopelistlen r hr with
      ⟨hl, hr2⟩ | ⟨e, rest, hl, he, _⟩
    · subst hl
      subst hr2
      refine ⟨rfl, rfl, ?_, ?_⟩
      · exact findEntry_cons_matched _ _ _ rfl
      · rw [storedBootstamp, findEntry_cons_matched _ _ _ rfl]
        rfl
    · subst hl
      rw [findEntry_cons_matched e rest addr he] at hno
      exact absurd hno (by simp)

/-- C3 as amended, on the empty list for 10.0.0.1 with bootstamp 2000. -/
theorem new_entry_created_with_zero_bootstamp_witness :
    findEntry [] 167772161 = none ∧
    SLPDKnownDAAddition 1 true [] 167772161 2000 [68] 1
      = some (Outcome.returned
          ⟨[⟨167772161, 0, memcpy [68] 1, 1⟩], ⟨167772161, 0, memcpy [68] 1, 1⟩, 0⟩) :=
  ⟨rfl, (new_entry_created_with_zero_bootstamp 0 true [] 167772161 2000 [68] 1 rfl).1 rfl⟩

/-! ## Update of an existing entry (C4, C5) -/

/-- C4, evaluated on the failing input: the list holds an entry for 10.0.0.2 and after it
the entry for 10.0.0.1 with bootstamp 5; a call for 10.0.0.1 with bootstamp 10 has not
returned after any number of loop iterations, so the stored bootstamp 5 and the stored scope
list are never overwritten. -/
theorem addition_never_updates_entry_behind_first (fuel : Nat) (alloc : Bool) :
    storedBootstamp [⟨167772162, 5, [65], 1⟩, ⟨167772161, 5, [65], 1⟩] 167772161 = some 5 ∧
    SLPDKnownDAAddition fuel alloc [⟨167772162, 5, [65], 1⟩, ⟨167772161, 5, [65], 1⟩]
      167772161 10 [66, 67] 2 = none :=
  ⟨by decide, loop_head_unmatched fuel alloc _ _ _ _ _ _ (by decide)⟩

/-- C5 fails as stated: 10.0.0.1 is stored with bootstamp 2000 and scope list `A`; a call
with the smaller bootstamp 1999 and the scope list `BC` leaves the scope list `BC` of length 2
in the entry. -/
theorem stale_advert_replaces_scope_list :
    findEntry [⟨167772161, 2000, [65], 1⟩] 167772161 = some ⟨167772161, 2000, [65], 1⟩ ∧
    1999 ≤ 2000 ∧
    SLPDKnownDAAddition 1 true [⟨167772161, 2000, [65], 1⟩] 167772161 1999 [66, 67] 2
      = some (Outcome.returned
          ⟨[⟨167772161, 2000, [66, 67], 2⟩], ⟨167772161, 2000, [66, 67], 2⟩, 0⟩) ∧
    findEntry [⟨167772161, 2000, [66, 67], 2⟩] 167772161
      ≠ some ⟨167772161, 2000, [65], 1⟩ := by
  decide

/-- C5 as amended: when the entry of the list for the address holds a bootstamp that is at
least the supplied one, a call that returns has left the stored bootstamp as it was and has
replaced the scope list, bytes and length, by the supplied one; and when that entry is the
first of the list and `realloc` succeeds, the call does return after one test of the loop
condition. -/
theorem stale_advert_keeps_bootstamp_and_replaces_scopes (fuel : Nat) (alloc : Bool)
    (l : List SLPDAEntry) (addr bootstamp : Nat) (scopelist : List Nat) (scopelistlen : Int)
    (e : SLPDAEntry) (hfind : findEntry l addr = some e) (hle : bootstamp ≤ e.bootstamp) :
    (∀ rest, l = e :: rest →
      SLPDKnownDAAddition (fuel + 1) true l addr bootstamp scopelist scopelistlen
        = some (Outcome.returned
            ⟨⟨addr, e.bootstamp, memcpy scopelist scopelistlen, scopelistlen⟩ :: rest,
             ⟨addr, e.bootstamp, memcpy scopelist scopelistlen, scopelistlen⟩, 0⟩)) ∧
    (∀ r, SLPDKnownDAAddition fuel alloc l addr bootstamp scopelist scopelistlen
        = some (Outcome.returned r) →
      r.entry = ⟨addr, e.bootstamp, memcpy scopelist scopelistlen, scopelistlen⟩ ∧
      findEntry r.head addr = some r.entry ∧
      storedBootstamp r.head addr = some e.bootstamp) := by
  have he : e.daaddr = addr := by
    have := List.find?_some hfind
    simpa using this
  have hnlt : ¬ e.bootstamp < bootstamp := Nat.not_lt.mpr hle
  constructor
  · intro rest hl
    subst hl
    rw [addition_head_matched fuel true e rest addr bootstamp scopelist scopelistlen he]
    simp [updateEntry, hnlt, he]
  · intro r hr
    rcases addition_returned fuel alloc l addr bootstamp scopelist scopelistlen r hr with
      ⟨hl, _⟩ | ⟨e0, rest, hl, he0, hr2⟩
    · subst hl
      simp [findEntry] at hfind
    · subst hl
      rw [findEntry_cons_matched e0 rest addr he0] at hfind
      cases hfind
      subst hr2
      have hu : updated e bootstamp scopelist scopelistlen
          = ⟨addr, e.bootstamp, memcpy scopelist scopelistlen, scopelistlen⟩ := by
        simp [updated, hnlt, he]
      refine ⟨hu, ?_, ?_⟩
      · show findEntry (updated e bootstamp scopelist scopelistlen :: rest) addr = _
        rw [hu]
        exact findEntry_cons_matched _ _ _ rfl
      · show storedBootstamp (updated e bootstamp scopelist scopelistlen :: rest) addr = _
        rw [hu, storedBootstamp, findEntry_cons_matched _ _ _ rfl]
        rfl

/-- C5 as amended, for 10.0.0.1 stored with bootstamp 2000 and advertised with 1999. -/
theorem stale_advert_keeps_bootstamp_and_replaces_scopes_witness :
    findEntry [⟨167772161, 2000, [65], 1⟩] 167772161 = some ⟨167772161, 2000, [65], 1⟩ ∧
    1999 ≤ 2000 ∧
    SLPDKnownDAAddition 1 true [⟨167772161, 2000, [65], 1⟩] 167772161 1999 [66, 67] 2
      = some (Outcome.returned
          ⟨[⟨167772161, 2000, memcpy [66, 67] 2, 2⟩],
           ⟨167772161, 2000, memcpy [66, 67] 2, 2⟩, 0⟩) :=
  ⟨by decide, by decide,
    (stale_advert_keeps_bootstamp_and_replaces_scopes 0 true [⟨167772161, 2000, [65], 1⟩]
      167772161 1999 [66, 67] 2 ⟨167772161, 2000, [65], 1⟩ (by decide) (by decide)).1 [] rfl⟩

/-! ## The zeroed bootstamp (C6) -/

/-- C6, evaluated on the failing input: on the empty list 10.0.0.1 advertises 2000, then
2001, then 2001 again. The second call, whose bootstamp 2001 is greater than the stored 0,
returns with `bootstamp` still 2001: nothing is zeroed for the restarted DA. The third call,
whose bootstamp is not greater than the stored 2001, zeroes the parameter `bootstamp`, and
that zero reaches neither the list nor the returned entry, which both still hold 2001. -/
theorem restart_advert_leaves_bootstamp_unzeroed :
    SLPDKnownDAAddition 1 true [] 167772161 2000 [68] 1
      = some (Outcome.returned ⟨[⟨167772161, 0, [68], 1⟩], ⟨167772161, 0, [68], 1⟩, 0⟩) ∧
    storedBootstamp [⟨167772161, 0, [68], 1⟩] 167772161 = some 0 ∧
    SLPDKnownDAAddition 1 true [⟨167772161, 0, [68], 1⟩] 167772161 2001 [68] 1
      = some (Outcome.returned
          ⟨[⟨167772161, 2001, [68], 1⟩], ⟨167772161, 2001, [68], 1⟩, 2001⟩) ∧
    storedBootstamp [⟨167772161, 2001, [68], 1⟩] 167772161 = some 2001 ∧
    SLPDKnownDAAddition 1 true [⟨167772161, 2001, [68], 1⟩] 167772161 2001 [68] 1
      = some (Outcome.returned
          ⟨[⟨167772161, 2001, [68], 1⟩], ⟨167772161, 2001, [68], 1⟩, 0⟩) := by
  decide

/-! ## One entry per address (C7) -/

/-- C7: after every sequence of calls of `SLPDKnownDAAddition` that return an entry, started
on the empty list, no two entries of the list have the same address. -/
theorem known_da_addresses_distinct (fuel : Nat) (calls : List Call) (l : List SLPDAEntry)
    (hrun : runCalls fuel [] calls = some l) :
    l.Pairwise (fun e1 e2 => e1.daaddr ≠ e2.daaddr) :=
  List.pairwise_map.mp (runCalls_nodup fuel calls [] l (by simp) hrun)

/-- C7 at a concrete trace: 10.0.0.1 advertises 2000 and then 2001 on the empty list. -/
theorem known_da_addresses_distinct_witness :
    runCalls 1 [] [⟨true, 167772161, 2000, [68], 1⟩, ⟨true, 167772161, 2001, [68], 1⟩]
      = some [⟨167772161, 2001, [68], 1⟩] ∧
    List.Pairwise (fun e1 e2 : SLPDAEntry => e1.daaddr ≠ e2.daaddr)
      [⟨167772161, 2001, [68], 1⟩] :=
  ⟨by decide,
    known_da_addresses_distinct 1
      [⟨true, 167772161, 2000, [68], 1⟩, ⟨true, 167772161, 2001, [68], 1⟩]
      [⟨167772161, 2001, [68], 1⟩] (by decide)⟩

/-! ## The returned entry (C8) -/

/-- C8, evaluated on the failing input: with the allocation succeeding, on the list holding
entries for 10.0.0.3 and 10.0.0.2, a call for 10.0.0.1 has not returned after any number of
loop iterations: no entry is added and none is returned. -/
theorem addition_returns_no_entry_for_unlisted_address (fuel : Nat) :
    findEntry [⟨167772163, 7, [65], 1⟩, ⟨167772162, 7, [65], 1⟩] 167772161 = none ∧
    SLPDKnownDAAddition fuel true [⟨167772163, 7, [65], 1⟩, ⟨167772162, 7, [65], 1⟩]
      167772161 8 [66] 1 = none :=
  ⟨by decide, loop_head_unmatched fuel true _ _ _ _ _ _ (by decide)⟩

/-! ## `SLPDKnownDAInit` (C9) -/

/-- C9, evaluated on the failing input: on the list holding the entry for 10.0.0.1,
`SLPDKnownDAInit` returns 0 and the list afterwards still holds that entry. -/
theorem init_keeps_prior_entries :
    SLPDKnownDAInit [⟨167772161, 2000, [68], 1⟩] = ([⟨167772161, 2000, [68], 1⟩], 0) ∧
    (⟨167772161, 2000, [68], 1⟩ : SLPDAEntry) ∈
      (SLPDKnownDAInit [⟨167772161, 2000, [68], 1⟩]).1 := by
  decide

/-! ## `SLPCryptoDSASign` (C10) -/

/-- C10: when `DSA_sign` answers 1 (success) or 0 (failure), `SLPCryptoDSASign` returns zero
exactly when `DSA_sign` answered 1 and a non-zero value exactly when it answered 0, for every
key, digest and signature buffer. -/
theorem dsa_sign_returns_zero_iff_success (DSA_sign : DSASign) (key : SLPCryptoDSAKey)
    (digest : List Nat) (digestlen : Int) (signature : List Nat) (signaturelen : Int)
    (hrange : (DSA_sign 0 digest digestlen signature signaturelen key).ret = 1 ∨
      (DSA_sign 0 digest digestlen signature signaturelen key).ret = 0) :
    ((SLPCryptoDSASign DSA_sign key digest digestlen signature signaturelen).ret = 0 ↔
      (DSA_sign 0 digest digestlen signature signaturelen key).ret = 1) ∧
    ((SLPCryptoDSASign DSA_sign key digest digestlen signature signaturelen).ret ≠ 0 ↔
      (DSA_sign 0 digest digestlen signature signaturelen key).ret = 0) := by
  rcases hrange with h | h <;> simp [SLPCryptoDSASign, h]

/-- C10 for a `DSA_sign` that succeeds, writing the two bytes 48 and 0 as the signature. -/
theorem dsa_sign_returns_zero_iff_success_witness :
    ((fun _ _ _ _ _ _ => ⟨1, [48, 0], 2⟩ : DSASign) 0 [1, 2] 2 [0, 0] 2
        ⟨some 23, some 11, some 2, some 3, some 8⟩).ret = 1 ∧
    (SLPCryptoDSASign (fun _ _ _ _ _ _ => ⟨1, [48, 0], 2⟩)
        ⟨some 23, some 11, some 2, some 3, some 8⟩ [1, 2] 2 [0, 0] 2).ret = 0 :=
  ⟨rfl,
    ((dsa_sign_returns_zero_iff_success (fun _ _ _ _ _ _ => ⟨1, [48, 0], 2⟩)
      ⟨some 23, some 11, some 2, some 3, some 8⟩ [1, 2] 2 [0, 0] 2 (Or.inl rfl)).1).mpr rfl⟩

/-! ## `SLPCryptoDSAVerify` (C11) -/

/-- C11, evaluated on the failing input: when `DSA_verify` answers -1, its error outcome,
`SLPCryptoDSAVerify` returns -1, which is neither 0 nor 1. -/
theorem dsa_verify_returns_error_code_unchanged (key : SLPCryptoDSAKey) :
    SLPCryptoDSAVerify (fun _ _ _ _ _ _ => -1) key [1, 2] 2 [48, 0] 2 = -1 ∧
    SLPCryptoDSAVerify (fun _ _ _ _ _ _ => -1) key [1, 2] 2 [48, 0] 2 ≠ 0 ∧
    SLPCryptoDSAVerify (fun _ _ _ _ _ _ => -1) key [1, 2] 2 [48, 0] 2 ≠ 1 := by
  simp [SLPCryptoDSAVerify]

/-! ## `SLPCryptoDSAKeyDup` (C13) -/

/-- C13, evaluated on the failing input: `DSA_new` hands out a key and every `BN_dup` then
fails and answers the null pointer. `SLPCryptoDSAKeyDup` returns a non-null key whose five
parameters are null, although the input key holds `p`, `q`, `g`, `priv_key` and `pub_key`. -/
theorem key_dup_returns_key_with_null_parameters :
    (SLPCryptoDSAKeyDup true (fun _ => none) ⟨some 23, some 11, some 2, some 3, some 8⟩).result
      = some ⟨none, none, none, none, none⟩ ∧
    (⟨none, none, none, none, none⟩ : SLPCryptoDSAKey).p
      ≠ (⟨some 23, some 11, some 2, some 3, some 8⟩ : SLPCryptoDSAKey).p ∧
    (⟨none, none, none, none, none⟩ : SLPCryptoDSAKey).priv_key
      ≠ (⟨some 23, some 11, some 2, some 3, some 8⟩ : SLPCryptoDSAKey).priv_key := by
  decide

/-! ## `SLPDLogFileOpen` and `SLPDFatal` (C14, C15) -/

/-- C14: for the empty path `SLPDLogFileOpen` makes `stdout` the log file and returns zero;
for a non-empty path the log file is what `fopen` gives for the mode `a` when `append` is
non-zero and for the mode `w` when it is zero, the return value is zero exactly when that is
a stream and -1 exactly when it is the null pointer; no other value is returned. -/
theorem log_file_open_result (fopen : String → String → Option FILE)
    (G_SlpdLogFile : Option FILE) (path : String) (append : Int) :
    (SLPDLogFileOpen fopen G_SlpdLogFile path append).G_SlpdLogFile
      = (if path = "" then some FILE.stdout
         else fopen path (if append ≠ 0 then "a" else "w")) ∧
    ((SLPDLogFileOpen fopen G_SlpdLogFile path append).ret = 0 ↔
      path = "" ∨ (fopen path (if append ≠ 0 then "a" else "w")).isSome) ∧
    ((SLPDLogFileOpen fopen G_SlpdLogFile path append).ret = -1 ↔
      path ≠ "" ∧ fopen path (if append ≠ 0 then "a" else "w") = none) ∧
    ((SLPDLogFileOpen fopen G_SlpdLogFile path append).ret = 0 ∨
      (SLPDLogFileOpen fopen G_SlpdLogFile path append).ret = -1) := by
  unfold SLPDLogFileOpen
  by_cases hp : path = ""
  · simp [hp]
  · by_cases ha : append = 0
    · cases hf : fopen path "w" <;> simp [hp, ha, hf]
    · cases hf : fopen path "a" <;> simp [hp, ha, hf]

/-- C15: whether or not a log file is open and whatever the message, `SLPDFatal` ends in
`exit(1)`: the exit status is 1, which is not zero. -/
theorem fatal_exits_with_status_one (G_SlpdLogFile : Option FILE) (text : String) :
    (SLPDFatal G_SlpdLogFile text).status = 1 ∧ (SLPDFatal G_SlpdLogFile text).status ≠ 0 := by
  cases G_SlpdLogFile <;> simp [SLPDFatal]

/-! ## `SLPDLogMessage` (C16) -/

/-- C16: when `SLPDLogMessage` writes anything, message logging is enabled for the flags
(`traceMsg` is set and `msglogflags` has a `SLPDLOG_TRACEMSG` bit, or `traceDrop` is set and
`msglogflags` has a `SLPDLOG_TRACEDROP` bit), `peerinfo` and `buf` are not null, the peer is
not a local address and the buffer is not empty. -/
theorem log_message_writes_only_when_enabled (env : LogEnv) (G_SlpdProperty : SLPDProperty)
    (G_SlpdLogFile : Option FILE) (msglogflags : Nat) (peerinfo : Option sockaddr_storage)
    (localaddr : Option sockaddr_storage) (buf : Option SLPBuffer)
    (hlog : SLPDLogMessage env G_SlpdProperty G_SlpdLogFile msglogflags peerinfo localaddr buf
      ≠ []) :
    ((G_SlpdProperty.traceMsg ≠ 0 ∧ msglogflags &&& env.SLPDLOG_TRACEMSG ≠ 0) ∨
      (G_SlpdProperty.traceDrop ≠ 0 ∧ msglogflags &&& env.SLPDLOG_TRACEDROP ≠ 0)) ∧
    ∃ p b, peerinfo = some p ∧ buf = some b ∧ env.SLPNetIsLocal p = 0 ∧ b.bytes ≠ [] := by
  cases peerinfo with
  | none => simp [SLPDLogMessage] at hlog
  | some p =>
    cases buf with
    | none => simp [SLPDLogMessage] at hlog
    | some b =>
      simp only [SLPDLogMessage] at hlog
      split at hlog
      · next hen =>
        split at hlog
        · next hloc => exact ⟨hen, p, b, rfl, rfl, hloc.1, hloc.2⟩
        · exact absurd rfl hlog
      · exact absurd rfl hlog

/-- C16 for an incoming message that is traced: `traceMsg` is 1, the flags are
`SLPDLOG_TRACEMSG_IN`, the peer is not local and the buffer holds two bytes. -/
theorem log_message_writes_only_when_enabled_witness :
    SLPDLogMessage
        ⟨0x80000000, 0x40000000, 0x80000002, 0x80000001, fun _ => 0, fun _ => "10.0.0.1",
          "Sun Nov  1 18:16:00 2026\n", true, fun _ _ _ => 1, fun _ => [], fun _ => [10, 0, 0, 1]⟩
        ⟨1, 0, 0, 0⟩ (some FILE.stdout) 0x80000001 (some [10, 0, 0, 1]) none (some ⟨[2, 1]⟩)
      ≠ [] ∧
    (((1 : Int) ≠ 0 ∧ 0x80000001 &&& 0x80000000 ≠ 0) ∨
      ((0 : Int) ≠ 0 ∧ 0x80000001 &&& 0x40000000 ≠ 0)) ∧
    ∃ p b, (some [10, 0, 0, 1] : Option sockaddr_storage) = some p ∧
      (some ⟨[2, 1]⟩ : Option SLPBuffer) = some b ∧ (0 : Int) = 0 ∧ b.bytes ≠ [] :=
  ⟨by simp [SLPDLogMessage, SLPDLog],
    log_message_writes_only_when_enabled
      ⟨0x80000000, 0x40000000, 0x80000002, 0x80000001, fun _ => 0, fun _ => "10.0.0.1",
        "Sun Nov  1 18:16:00 2026\n", true, fun _ _ _ => 1, fun _ => [], fun _ => [10, 0, 0, 1]⟩
      ⟨1, 0, 0, 0⟩ (some FILE.stdout) 0x80000001 (some [10, 0, 0, 1]) none (some ⟨[2, 1]⟩)
      (by simp [SLPDLogMessage, SLPDLog])⟩

/-! ## The frame of `SLPDKnownDAAddition` (C17) -/

/-- The frame of a call that returns an entry: every entry that was in the list with another
address is still in the list, with the same address, bootstamp and scope list, and the list
has at most one entry more. -/
theorem addition_changes_only_the_addressed_entry (fuel : Nat) (alloc : Bool)
    (l : List SLPDAEntry) (addr bootstamp : Nat) (scopelist : List Nat) (scopelistlen : Int)
    (r : Result)
    (hret : SLPDKnownDAAddition fuel alloc l addr bootstamp scopelist scopelistlen
      = some (Outcome.returned r)) :
    (∀ e ∈ l, e.daaddr ≠ addr → e ∈ r.head) ∧ r.head.length ≤ l.length + 1 := by
  rcases addition_returned fuel alloc l addr bootstamp scopelist scopelistlen r hret with
    ⟨hl, hr⟩ | ⟨e0, rest, hl, he0, hr⟩
  · subst hl
    subst hr
    simp
  · subst hl
    subst hr
    refine ⟨?_, by simp⟩
    intro e he hne
    rcases List.mem_cons.mp he with h | h
    · exact absurd (h ▸ he0) hne
    · exact List.mem_cons_of_mem _ h

/-- C17, evaluated on the failing input: `realloc` answers the null pointer (as it may for
`scopelistlen` 0) on a call for 10.0.0.1, the first entry of the list, with the entry for
10.0.0.2 behind it or with no other entry. The call returns 0 through lines 95 to 101 having
freed the entry for 10.0.0.1 while it is still linked: no well-formed list is left behind, and
the entry for 10.0.0.2 hangs off freed storage. -/
theorem addition_frees_linked_entry_on_realloc_failure (fuel : Nat) :
    SLPDKnownDAAddition (fuel + 1) false
        [⟨167772161, 2000, [65], 1⟩, ⟨167772162, 1000, [68], 1⟩] 167772161 2001 [] 0
      = some Outcome.freed ∧
    SLPDKnownDAAddition (fuel + 1) false [⟨167772161, 0, [65], 1⟩] 167772161 2001 [] 0
      = some Outcome.freed :=
  ⟨by rw [addition_head_matched _ _ _ _ _ _ _ _ rfl]; rfl,
   by rw [addition_head_matched _ _ _ _ _ _ _ _ rfl]; rfl⟩

/-! ## `SLPDLogParseWarning` (C18) -/

theorem parse_warning_loop_eq (file : FILE) (bytes : List Nat) :
    ∀ i k : Nat, i = k % 10 →
      SLPDLogParseWarning.loop (some file) bytes i = (messageDump k bytes).flatten := by
  induction bytes with
  | nil =>
    intro i k _
    simp [SLPDLogParseWarning.loop, messageDump]
  | cons b rest ih =>
    intro i k hik
    have hten : (i + 1 = 10) ↔ ((k + 1) % 10 = 0) := by omega
    have hcons : messageDump k (b :: rest)
        = (dumpEntry b ++ if (k + 1) % 10 = 0 then ["\n"] else [])
          :: messageDump (k + 1) rest := by
      simp [messageDump, List.enumFrom_cons]
    rw [hcons, List.flatten_cons]
    by_cases h10 : i + 1 = 10
    · have hk : (k + 1) % 10 = 0 := hten.mp h10
      rw [← ih 0 (k + 1) hk.symm]
      by_cases hc : 0x20 ≤ b ∧ b ≤ 0x7f
      · have hc2 : ¬ (b < 0x20 ∨ b > 0x7f) := by omega
        simp [SLPDLogParseWarning.loop, SLPDLog, dumpEntry, h10, hk, hc, hc2]
      · have hc2 : b < 0x20 ∨ b > 0x7f := by omega
        simp [SLPDLogParseWarning.loop, SLPDLog, dumpEntry, h10, hk, hc, hc2]
    · have hk : ¬ (k + 1) % 10 = 0 := fun h => h10 (hten.mpr h)
      have hnext : i + 1 = (k + 1) % 10 := by omega
      rw [← ih (i + 1) (k + 1) hnext]
      by_cases hc : 0x20 ≤ b ∧ b ≤ 0x7f
      · have hc2 : ¬ (b < 0x20 ∨ b > 0x7f) := by omega
        simp [SLPDLogParseWarning.loop, SLPDLog, dumpEntry, h10, hk, hc, hc2]
      · have hc2 : b < 0x20 ∨ b > 0x7f := by omega
        simp [SLPDLogParseWarning.loop, SLPDLog, dumpEntry, h10, hk, hc, hc2]

/-- C18: with a log file open, `SLPDLogParseWarning` writes its heading, then the dump the
specification describes (one entry per byte of the buffer from `start` to `end`, in order,
each `0xHH` and the character or a blank, with a line break after every tenth entry) and a
last line break; the dump has exactly `end - start` entries; and nothing is written when
`peeraddr` or `buf` is null. -/
theorem parse_warning_dumps_whole_message (env : LogEnv) (file : FILE)
    (G_SlpdLogFile : Option FILE) (peeraddr : sockaddr_storage)
    (peer : Option sockaddr_storage) (buf : SLPBuffer) (b : Option SLPBuffer) :
    SLPDLogParseWarning env (some file) (some peeraddr) (some buf)
      = ["\n", env.ctime, "*** WARNING Parse Error ***\n",
          "Peer IP address: " ++ env.SLPNetSockAddrStorageToString peeraddr ++ "\n",
          "message size = " ++ fmt_i buf.bytes.length ++ "\n", "message dump follows:\n"]
        ++ (messageDump 0 buf.bytes).flatten ++ ["\n"] ∧
    (messageDump 0 buf.bytes).length = buf.bytes.length ∧
    SLPDLogParseWarning env G_SlpdLogFile none b = [] ∧
    SLPDLogParseWarning env G_SlpdLogFile peer none = [] := by
  refine ⟨?_, by simp [messageDump], by simp [SLPDLogParseWarning], ?_⟩
  · simp [SLPDLogParseWarning, SLPDLogTime, SLPDLogPeerAddr, SLPDLog,
      parse_warning_loop_eq file buf.bytes 0 0 rfl]
  · cases peer <;> simp [SLPDLogParseWarning]

/-- The dump of the twelve bytes `AB`, a line feed, `C` to `J` and the byte 0x80, as the
texts written. -/
theorem parse_warning_dump_example :
    (messageDump 0 [65, 66, 10, 67, 68, 69, 70, 71, 72, 73, 74, 128]).flatten
      = ["0x41", "(\x27A\x27) ", "0x42", "(\x27B\x27) ", "0x0a", "(\x27 \x27) ",
         "0x43", "(\x27C\x27) ", "0x44", "(\x27D\x27) ", "0x45", "(\x27E\x27) ",
         "0x46", "(\x27F\x27) ", "0x47", "(\x27G\x27) ", "0x48", "(\x27H\x27) ",
         "0x49", "(\x27I\x27) ", "\n", "0x4a", "(\x27J\x27) ", "0x80", "(\x27 \x27) "] := by
  decide

end OpenSLP
